import Mathlib

/-!
Verification of the databricks-scripts repository: a shallow embedding of
`databricks_bundle_executor.py` (credential resolution, git clone with URL
credential embedding, the CLI execution strategy chain, working-directory
resolution, and the main pipeline with guaranteed cleanup) and of
`analyze_files` from `git_clone_and_list.py`, together with theorems checking
the natural-language specification against this embedding.

External effects (subprocess exit codes, timeouts, raised exceptions,
filesystem existence checks, the downloaded-CLI outcome) are modelled as
explicit outcome parameters; all pure logic (string manipulation, branching,
dictionary construction) is translated directly from the Python source.
-/

/-- Python truthiness for an optional string: `None` and the empty string are
falsy; a non-empty string is truthy (and is its own truthy value). -/
def truthy : Option String → Option String
  | none => none
  | some s => if s = "" then none else some s

/-- Python `a or b` on optional strings: the first operand if truthy,
otherwise the second operand. -/
def pyOr (a b : Option String) : Option String :=
  match truthy a with
  | some s => some s
  | none => b

/-- Python `pat in s` substring test, on character lists. -/
def containsSubList (pat : List Char) : List Char → Bool
  | [] => pat.isPrefixOf []
  | c :: cs => pat.isPrefixOf (c :: cs) || containsSubList pat cs

/-- Python `s.replace(pat, rep)` for a non-empty pattern `p0 :: ps`: every
occurrence of the pattern is replaced, scanning left to right and continuing
after each replacement. The fuel argument makes the recursion structural;
with fuel at least the length of the scanned list (as `replaceList` supplies)
it never runs out, since each step consumes at least one character. -/
def replaceFuel (p0 : Char) (ps rep : List Char) : Nat → List Char → List Char
  | _, [] => []
  | 0, s => s
  | n + 1, c :: cs =>
    if (p0 :: ps).isPrefixOf (c :: cs) then
      rep ++ replaceFuel p0 ps rep n (cs.drop ps.length)
    else
      c :: replaceFuel p0 ps rep n cs

/-- Python `s.replace(pat, rep)` on character lists (all occurrences). The
empty-pattern case never arises in this code base; it is mapped to the
identity. -/
def replaceList (pat rep s : List Char) : List Char :=
  match pat with
  | [] => s
  | p0 :: ps => replaceFuel p0 ps rep s.length s

/-- Python `pat in s` on strings. -/
def containsStr (s pat : String) : Bool :=
  containsSubList pat.data s.data

/-- Python `s.replace(pat, rep)` on strings. -/
def replaceStr (s pat rep : String) : String :=
  String.mk (replaceList pat.data rep.data s.data)

/-- Python `s.startswith(pat)` on strings. -/
def startsWithStr (s pat : String) : Bool :=
  pat.data.isPrefixOf s.data

/-- Python `s.endswith(pat)` on strings. -/
def endsWithStr (s pat : String) : Bool :=
  pat.data.isSuffixOf s.data

/-- The host normalization in `setup_databricks_authentication`:
`host.replace('https://', '').replace('http://', '')`. -/
def stripScheme (host : String) : String :=
  replaceStr (replaceStr host "https://" "") "http://" ""

/-- A parsed connection-configuration dictionary. Each field models the
presence (`some`) or absence (`none`) of the corresponding key in the JSON
object; both scripts only ever read these seven keys. -/
structure ConnConfig where
  workspace_url : Option String := none
  databricks_instance_url : Option String := none
  authentication_type : Option String := none
  client_id : Option String := none
  secret : Option String := none
  personal_access_token : Option String := none
  token : Option String := none
deriving DecidableEq

/-- The dictionary of Databricks environment variables returned by
`setup_databricks_authentication`; `none` everywhere models the empty dict. -/
structure EnvVars where
  databricks_host : Option String := none
  databricks_token : Option String := none
  databricks_client_id : Option String := none
  databricks_client_secret : Option String := none
deriving DecidableEq

/-- The empty environment dictionary `{}` (the failure result of credential
resolution). -/
def EnvVars.empty : EnvVars := {}

/-- The host selected by `setup_databricks_authentication`:
`databricks_host or db_config.get('workspace_url') or
db_config.get('databricks_instance_url')`, then the `if host:` truthiness
check. -/
def selectedHost (cfg : ConnConfig) (databricks_host : Option String) : Option String :=
  truthy (pyOr databricks_host (pyOr cfg.workspace_url cfg.databricks_instance_url))

/-- The token selected in the personal-access-token branch:
`databricks_token or db_config.get('personal_access_token') or
db_config.get('token')`, then the `if token:` truthiness check. -/
def selectedToken (cfg : ConnConfig) (databricks_token : Option String) : Option String :=
  truthy (pyOr databricks_token (pyOr cfg.personal_access_token cfg.token))

/-- Embedding of `setup_databricks_authentication` (lines 80-127): builds the
environment-variable dictionary, defaulting the authentication type to
`personal_access_token`, and returns the empty dictionary when the selected
variant's credentials are missing. -/
def setup_databricks_authentication (cfg : ConnConfig)
    (databricks_host databricks_token : Option String) : EnvVars :=
  let hostEnv : Option String := (selectedHost cfg databricks_host).map stripScheme
  let auth := cfg.authentication_type.getD "personal_access_token"
  if auth = "service_principal" then
    match truthy cfg.client_id, truthy cfg.secret with
    | some ci, some sec =>
      { databricks_host := hostEnv
        databricks_client_id := some ci
        databricks_client_secret := some sec }
    | some _, none => EnvVars.empty
    | none, _ => EnvVars.empty
  else
    match selectedToken cfg databricks_token with
    | some tok => { databricks_host := hostEnv, databricks_token := some tok }
    | none => EnvVars.empty

/-- Outcome of the `git clone` subprocess in `execute_git_clone`: an exit code,
a `subprocess.TimeoutExpired`, or some other raised exception. -/
inductive CloneOutcome
  | exit (code : Int)
  | timeout
  | exc
deriving DecidableEq

/-- Exceptions that can escape the try-body of `execute_git_clone` before the
enclosing handlers run. -/
inductive PyExc
  | timeoutExpired
  | other
deriving DecidableEq

/-- Embedding of `authenticated_url` computation inside `execute_git_clone`
(lines 148-162): if a truthy git token is present, it is embedded into the
clone URL with a provider-dependent convention; otherwise the URL is used
unchanged. -/
def authenticated_url (git_url : String) (git_token : Option String) : String :=
  match truthy git_token with
  | none => git_url
  | some tok =>
    if containsStr git_url "github.com" then
      replaceStr git_url "https://" ("https://" ++ tok ++ "@")
    else if containsStr git_url "gitlab.com" then
      replaceStr git_url "https://" ("https://oauth2:" ++ tok ++ "@")
    else
      replaceStr git_url "https://" ("https://" ++ tok ++ "@")

/-- The try-body of `execute_git_clone`: computes the authenticated URL, runs
the clone subprocess, and either returns a boolean (nonzero exit is `false`)
or raises. -/
def execute_git_clone_body (o : CloneOutcome) : Except PyExc Bool :=
  match o with
  | .exit code => if code ≠ 0 then .ok false else .ok true
  | .timeout => .error .timeoutExpired
  | .exc => .error .other

/-- Embedding of `execute_git_clone` (lines 129-184): the try-body wrapped in
handlers that turn `TimeoutExpired` and any other exception into `False`. -/
def execute_git_clone (git_url : String) (git_token : Option String)
    (o : CloneOutcome) : Bool :=
  let _ := authenticated_url git_url git_token
  match execute_git_clone_body o with
  | .ok b => b
  | .error .timeoutExpired => false
  | .error .other => false

/-- Outcome of the native-CLI strategy inside `execute_bundle_operation`:
no installed CLI is discovered at all, the bundle subprocess exits with a
code, an exception is raised during inspection or execution, or the bundle
subprocess times out. -/
inductive NativeOutcome
  | notFound
  | exit (code : Int)
  | exc
  | timeout
deriving DecidableEq

/-- Outcome of the downloaded-CLI strategy inside
`download_and_execute_bundle_operation`: the platform is unsupported, the
archive fails to extract, no CLI binary is found after extraction, the bundle
subprocess exits with a code, or an exception (download failure, timeout,
anything else) is raised and caught. -/
inductive DownloadOutcome
  | unsupportedPlatform
  | extractFail
  | binaryMissing
  | bundleExit (code : Int)
  | exc
deriving DecidableEq

/-- Embedding of `download_and_execute_bundle_operation` (lines 545-715): it
returns `True` exactly when its own bundle subprocess exits with code 0, and
`False` on every other outcome (all exceptions are caught at line 713). -/
def download_and_execute_bundle_operation (d : DownloadOutcome) : Bool :=
  match d with
  | .bundleExit code => decide (code = 0)
  | .unsupportedPlatform => false
  | .extractFail => false
  | .binaryMissing => false
  | .exc => false

/-- One per-strategy diagnostic record: which strategy was attempted and
whether it reported success. This models the per-strategy log lines emitted
by `execute_bundle_operation` and its fallback. -/
structure StrategyAttempt where
  strategy : String
  success : Bool
deriving DecidableEq

/-- Embedding of `execute_bundle_operation` (lines 399-543) together with the
per-strategy diagnostic trail: the native-CLI strategy runs first; on exit
code 0 it returns success without the downloaded-CLI strategy; on a nonzero
exit code, a raised exception, or a timeout it falls through to
`download_and_execute_bundle_operation`; when no installed CLI is discovered
at all it returns `False` at line 465 without any fallback. -/
def execute_bundle_operation (native : NativeOutcome) (d : DownloadOutcome) :
    Bool × List StrategyAttempt :=
  match native with
  | .notFound => (false, [⟨"native_cli", false⟩])
  | .exit code =>
    if code = 0 then
      (true, [⟨"native_cli", true⟩])
    else
      (download_and_execute_bundle_operation d,
       [⟨"native_cli", false⟩,
        ⟨"downloaded_cli", download_and_execute_bundle_operation d⟩])
  | .exc =>
    (download_and_execute_bundle_operation d,
     [⟨"native_cli", false⟩,
      ⟨"downloaded_cli", download_and_execute_bundle_operation d⟩])
  | .timeout =>
    (download_and_execute_bundle_operation d,
     [⟨"native_cli", false⟩,
      ⟨"downloaded_cli", download_and_execute_bundle_operation d⟩])

/-- A connection-configuration JSON blob passed on the command line: either a
valid JSON object (carrying the configuration it denotes) or a string that is
not valid JSON. -/
inductive JsonBlob
  | valid (cfg : ConnConfig)
  | malformed

/-- Embedding of `parse_connection_config` (lines 71-78): a valid blob parses
to its configuration; a malformed blob raises `json.JSONDecodeError`, which is
caught and logged as a warning, and the empty dict is returned; an absent or
falsy blob also yields the empty dict. -/
def parse_connection_config : Option JsonBlob → ConnConfig
  | none => {}
  | some .malformed => {}
  | some (.valid cfg) => cfg

/-- Python `posixpath.dirname` on character lists: the prefix up to the last
slash, with trailing slashes stripped unless the prefix is all slashes. -/
def dirnameChars (p : List Char) : List Char :=
  let head := (p.reverse.dropWhile (fun c => c ≠ '/')).reverse
  if head.isEmpty then head
  else if head.all (fun c => c = '/') then head
  else (head.reverse.dropWhile (fun c => c = '/')).reverse

/-- Python `os.path.dirname` on strings (POSIX semantics). -/
def dirnameStr (p : String) : String :=
  String.mk (dirnameChars p.data)

/-- Python `posixpath.join(a, b)` for two components: an absolute second
component replaces the first; otherwise the two are joined with a single
separator. -/
def pathJoin (a b : String) : String :=
  if startsWithStr b "/" then b
  else if a = "" ∨ endsWithStr a "/" = true then a ++ b
  else a ++ "/" ++ b

/-- Embedding of the working-directory resolution in the main block
(lines 1037-1048): the parent directory of the YAML path joined under the
temporary clone directory, falling back to the clone root when that directory
does not exist or the path has no directory component. -/
def resolve_work_dir (yaml_path temp_dir : String) (dirExists : String → Bool) : String :=
  let yamlDir := dirnameStr yaml_path
  if yamlDir ≠ "" then
    let wd := pathJoin temp_dir yamlDir
    if dirExists wd then wd else temp_dir
  else
    temp_dir

/-- Embedding of the git-token fallback in the main block (lines 1001-1006):
a falsy `--git_token` argument is replaced by the git connection config's
`token` key, then by its `personal_access_token` key, whichever is truthy
first. -/
def pickGitToken (argTok : Option String) (cfg : ConnConfig) : Option String :=
  let t1 := if truthy argTok = none ∧ truthy cfg.token ≠ none then cfg.token else argTok
  if truthy t1 = none ∧ truthy cfg.personal_access_token ≠ none then
    cfg.personal_access_token
  else t1

/-- The command-line arguments of `databricks_bundle_executor.py` as parsed by
`parse_arguments` (lines 36-63). Note that the surface has host and token
overrides but no client-id or client-secret override flags. -/
structure Args where
  git_url : String
  git_branch : String := "main"
  git_token : Option String := none
  yaml_path : String
  target_env : String := "dev"
  databricks_host : Option String := none
  databricks_token : Option String := none
  git_connection_config : Option JsonBlob := none
  databricks_connection_config : Option JsonBlob := none
  operation : String := "validate"

/-- The git connection configuration computed in the main block. -/
def gitConfigOf (args : Args) : ConnConfig :=
  parse_connection_config args.git_connection_config

/-- The Databricks connection configuration computed in the main block. -/
def dbConfigOf (args : Args) : ConnConfig :=
  parse_connection_config args.databricks_connection_config

/-- Outcome of the `shutil.rmtree` cleanup call in the `finally` block. -/
inductive CleanupOutcome
  | ok
  | fail
deriving DecidableEq

/-- Boolean test for a failed cleanup. -/
def CleanupOutcome.failed : CleanupOutcome → Bool
  | .ok => false
  | .fail => true

/-- External-world outcomes supplied to one main invocation: the clone
subprocess outcome, the native-CLI strategy outcome, the downloaded-CLI
strategy outcome, whether an unexpected exception is raised mid-pipeline,
the cleanup outcome, and the filesystem existence oracle used by the
working-directory resolution. -/
structure Oracles where
  clone : CloneOutcome
  native : NativeOutcome
  download : DownloadOutcome
  unexpected : Bool
  cleanup : CleanupOutcome
  dirExists : String → Bool

/-- How one main invocation terminates: `sys.exit(code)` or a propagated
uncaught exception. -/
inductive Verdict
  | exited (code : Int)
  | raised
deriving DecidableEq

/-- Result of the try-body of the main block (after the temporary directory
has been created): the verdict plus which pipeline steps were reached. -/
structure BodyResult where
  verdict : Verdict
  cloneAttempted : Bool
  bundleAttempted : Bool
  workDir : Option String
deriving DecidableEq

/-- Observable trace of one main invocation: the verdict, which steps ran,
whether the temporary directory was created, whether its removal was
attempted, and whether it still exists after the invocation returns. -/
structure MainTrace where
  verdict : Verdict
  tempDirCreated : Bool
  cloneAttempted : Bool
  bundleAttempted : Bool
  workDir : Option String
  cleanupAttempted : Bool
  tempDirExistsAfter : Bool
deriving DecidableEq

/-- Trace of an invocation that aborts before the temporary directory is
created (failed credential resolution or a missing required parameter). -/
def preDirTrace : MainTrace :=
  { verdict := .exited 1
    tempDirCreated := false
    cloneAttempted := false
    bundleAttempted := false
    workDir := none
    cleanupAttempted := false
    tempDirExistsAfter := false }

/-- The try-body of the main block (lines 1031-1055): clone, resolve the
working directory, run the strategy chain; `sys.exit(1)` on clone or bundle
failure, `sys.exit(0)` on success, and a propagated exception when an
unexpected error is raised mid-pipeline. -/
def mainBody (git_url : String) (git_token : Option String)
    (yaml_path temp_dir : String) (clone : CloneOutcome) (native : NativeOutcome)
    (d : DownloadOutcome) (unexpected : Bool) (dirExists : String → Bool) :
    BodyResult :=
  if execute_git_clone git_url git_token clone = false then
    { verdict := .exited 1, cloneAttempted := true, bundleAttempted := false
      workDir := none }
  else
    let wd := resolve_work_dir yaml_path temp_dir dirExists
    if unexpected then
      { verdict := .raised, cloneAttempted := true, bundleAttempted := false
        workDir := some wd }
    else if (execute_bundle_operation native d).1 then
      { verdict := .exited 0, cloneAttempted := true, bundleAttempted := true
        workDir := some wd }
    else
      { verdict := .exited 1, cloneAttempted := true, bundleAttempted := true
        workDir := some wd }

/-- Embedding of the main block (lines 967-1063): parse configs, resolve
credentials (abort with exit code 1 on failure, before any clone), check the
required parameters, create the temporary directory, run the try-body, and
always run the `finally` cleanup whose own failure is caught and only
logged. -/
def mainRun (args : Args) (o : Oracles) (temp_dir : String) : MainTrace :=
  let gitTok := pickGitToken args.git_token (gitConfigOf args)
  let envVars := setup_databricks_authentication (dbConfigOf args)
      args.databricks_host args.databricks_token
  if envVars = EnvVars.empty then preDirTrace
  else if args.git_url = "" then preDirTrace
  else if args.yaml_path = "" then preDirTrace
  else
    let b := mainBody args.git_url gitTok args.yaml_path temp_dir
        o.clone o.native o.download o.unexpected o.dirExists
    { verdict := b.verdict
      tempDirCreated := true
      cloneAttempted := b.cloneAttempted
      bundleAttempted := b.bundleAttempted
      workDir := b.workDir
      cleanupAttempted := true
      tempDirExistsAfter := o.cleanup.failed }

/-- One filesystem entry found by `repo_path.rglob` in `analyze_files`: its
base name, its size, whether it is a regular file, and whether `stat()`
succeeds on it. -/
structure FsEntry where
  name : String
  size : Nat
  isFile : Bool := true
  statOk : Bool := true
deriving DecidableEq

/-- Python `s.lower()` on strings (ASCII case folding suffices here). -/
def toLowerStr (s : String) : String :=
  String.mk (s.data.map Char.toLower)

/-- The comparison used by `file_sizes.sort(key=lambda x: x[1], reverse=True)`:
non-increasing size order. -/
def sizeGe (a b : FsEntry) : Bool :=
  decide (b.size ≤ a.size)

/-- The report produced by `analyze_files`. -/
structure FileAnalysis where
  total_files : Nat
  total_directories : Nat
  largest_files : List FsEntry
  readme_files : List FsEntry
  hidden_files : List FsEntry
  all_files : List FsEntry
deriving DecidableEq

/-- Embedding of `analyze_files` from `git_clone_and_list.py` (lines 50-92):
regular files are separated from directories, stat-able files are sorted by
size in non-increasing order (Python's stable sort) and the top 10 kept,
readme files are matched case-insensitively, and the first 20 dot-files are
reported as hidden. -/
def analyze_files (entries : List FsEntry) : FileAnalysis :=
  let files := entries.filter (fun e => e.isFile)
  let directories := entries.filter (fun e => !e.isFile)
  let fileSizes := (files.filter (fun e => e.statOk)).mergeSort sizeGe
  let readmes := files.filter (fun e => containsStr (toLowerStr e.name) "readme")
  let hidden := files.filter (fun e => startsWithStr e.name ".")
  { total_files := files.length
    total_directories := directories.length
    largest_files := fileSizes.take 10
    readme_files := readmes
    hidden_files := hidden.take 20
    all_files := files }

lemma truthy_some_of_ne (s : String) (h : s ≠ "") : truthy (some s) = some s := by
  simp [truthy, h]

lemma selectedHost_override (cfg : ConnConfig) (hv : String) (h : hv ≠ "") :
    selectedHost cfg (some hv) = some hv := by
  simp [selectedHost, pyOr, truthy_some_of_ne hv h]

lemma selectedToken_override (cfg : ConnConfig) (tv : String) (h : tv ≠ "") :
    selectedToken cfg (some tv) = some tv := by
  simp [selectedToken, pyOr, truthy_some_of_ne tv h]

/-- C4: for every connection configuration with authentication_type =
service_principal, credential resolution succeeds exactly when both client_id
and secret are non-empty (yielding both client variables), and returns the
empty dictionary — never a degraded authentication mode — when either is
missing. -/
theorem C4_service_principal (cfg : ConnConfig) (h t : Option String)
    (hauth : cfg.authentication_type = some "service_principal") :
    (∀ ci sec : String, truthy cfg.client_id = some ci → truthy cfg.secret = some sec →
       setup_databricks_authentication cfg h t =
         { databricks_host := (selectedHost cfg h).map stripScheme
           databricks_client_id := some ci
           databricks_client_secret := some sec })
  ∧ (truthy cfg.client_id = none ∨ truthy cfg.secret = none →
       setup_databricks_authentication cfg h t = EnvVars.empty) := by
  constructor
  · intro ci sec hci hsec
    simp [setup_databricks_authentication, hauth, hci, hsec]
  · intro hmiss
    rcases hmiss with hc | hs
    · simp [setup_databricks_authentication, hauth, hc]
    · rcases hci : truthy cfg.client_id with _ | ci <;>
        simp [setup_databricks_authentication, hauth, hci, hs]

/-- Witness for C4 at a concrete service-principal configuration. -/
theorem C4_service_principal_witness :
    setup_databricks_authentication
      { authentication_type := some "service_principal"
        client_id := some "client-123", secret := some "secret-456" }
      (some "https://ws.example.com") none =
    { databricks_host := some "ws.example.com"
      databricks_client_id := some "client-123"
      databricks_client_secret := some "secret-456" } := by
  have h := (C4_service_principal
      { authentication_type := some "service_principal"
        client_id := some "client-123", secret := some "secret-456" }
      (some "https://ws.example.com") none rfl).1 "client-123" "secret-456"
      (by decide) (by decide)
  exact h.trans (by decide)

/-- C3 counterexample: a personal-access-token configuration with a populated
token field but no host (and no overrides) resolves successfully, yet the
result is only a token variable — no host + token pair is yielded, contrary
to the claim as stated. -/
theorem C3_counterexample :
    setup_databricks_authentication { token := some "tok123" } none none ≠ EnvVars.empty
  ∧ (setup_databricks_authentication { token := some "tok123" } none none).databricks_token
      = some "tok123"
  ∧ (setup_databricks_authentication { token := some "tok123" } none none).databricks_host
      = none := ⟨by decide, by decide, by decide⟩

/-- C3 (amended): with personal-access-token authentication (explicit or
defaulted), resolution succeeds exactly when the token chain yields a
non-empty token, producing the token variable plus the host variable when a
host is available (override or configuration); with no token anywhere it
returns the empty dictionary, and the main invocation then exits with code 1
before any clone is attempted. -/
theorem C3_pat_resolution (cfg : ConnConfig) (h t : Option String)
    (hauth : cfg.authentication_type.getD "personal_access_token" ≠ "service_principal") :
    (∀ tok : String, selectedToken cfg t = some tok →
       setup_databricks_authentication cfg h t =
         { databricks_host := (selectedHost cfg h).map stripScheme
           databricks_token := some tok }
       ∧ setup_databricks_authentication cfg h t ≠ EnvVars.empty)
  ∧ (selectedToken cfg t = none →
       setup_databricks_authentication cfg h t = EnvVars.empty)
  ∧ (∀ (args : Args) (o : Oracles) (td : String),
       setup_databricks_authentication (dbConfigOf args) args.databricks_host
           args.databricks_token = EnvVars.empty →
       (mainRun args o td).verdict = Verdict.exited 1
       ∧ (mainRun args o td).cloneAttempted = false) := by
  refine ⟨?_, ?_, ?_⟩
  · intro tok htok
    constructor
    · simp [setup_databricks_authentication, hauth, htok]
    · simp [setup_databricks_authentication, hauth, htok, EnvVars.empty]
  · intro htok
    simp [setup_databricks_authentication, hauth, htok]
  · intro args o td hsetup
    constructor
    · simp [mainRun, hsetup, preDirTrace]
    · simp [mainRun, hsetup, preDirTrace]

/-- Witness for C3 at a concrete configuration with both host and token. -/
theorem C3_pat_resolution_witness :
    setup_databricks_authentication { token := some "tok123" }
      (some "https://host.example") none =
    { databricks_host := some "host.example", databricks_token := some "tok123" } := by
  have h := ((C3_pat_resolution { token := some "tok123" } (some "https://host.example")
      none (by decide)).1 "tok123" (by decide)).1
  exact h.trans (by decide)

/-- C7 counterexample: with a service-principal configuration, an explicit
caller token override is silently discarded — the result carries the
configuration's client credentials and no token variable — so direct
overrides do not take precedence over everything in the configuration. The
command-line surface (`Args`) moreover has no client-id or secret override
flags at all. -/
theorem C7_counterexample :
    (setup_databricks_authentication
       { authentication_type := some "service_principal"
         client_id := some "cfg-client", secret := some "cfg-secret"
         token := some "cfg-token" }
       none (some "explicit-token")).databricks_token = none
  ∧ (setup_databricks_authentication
       { authentication_type := some "service_principal"
         client_id := some "cfg-client", secret := some "cfg-secret"
         token := some "cfg-token" }
       none (some "explicit-token")).databricks_client_id = some "cfg-client" :=
  ⟨by decide, by decide⟩

/-- C7 (amended): an explicit host override always wins over the
configuration's host fields (and is the host embedded in any successful
result), and an explicit token override wins over the configuration's token
fields whenever personal-access-token authentication is selected; under
service_principal the token override is ignored, and no client-id/secret
overrides exist in the CLI surface. -/
theorem C7_override_precedence (cfg : ConnConfig) (t : Option String) (hv tv : String)
    (hh : hv ≠ "") (ht : tv ≠ "") :
    selectedHost cfg (some hv) = some hv
  ∧ (setup_databricks_authentication cfg (some hv) t ≠ EnvVars.empty →
       (setup_databricks_authentication cfg (some hv) t).databricks_host =
         some (stripScheme hv))
  ∧ selectedToken cfg (some tv) = some tv
  ∧ (cfg.authentication_type.getD "personal_access_token" ≠ "service_principal" →
       ∀ h : Option String,
         (setup_databricks_authentication cfg h (some tv)).databricks_token = some tv) := by
  refine ⟨selectedHost_override cfg hv hh, ?_, selectedToken_override cfg tv ht, ?_⟩
  · intro hne
    by_cases hsp : cfg.authentication_type.getD "personal_access_token" = "service_principal"
    · rcases hci : truthy cfg.client_id with _ | ci
      · exact absurd (by simp [setup_databricks_authentication, hsp, hci]) hne
      · rcases hsec : truthy cfg.secret with _ | sec
        · exact absurd (by simp [setup_databricks_authentication, hsp, hci, hsec]) hne
        · simp [setup_databricks_authentication, hsp, hci, hsec,
            selectedHost_override cfg hv hh]
    · rcases htok : selectedToken cfg t with _ | tok
      · exact absurd (by simp [setup_databricks_authentication, hsp, htok]) hne
      · simp [setup_databricks_authentication, hsp, htok,
          selectedHost_override cfg hv hh]
  · intro hsp h
    simp [setup_databricks_authentication, hsp, selectedToken_override cfg tv ht]

/-- Witness for C7: explicit host and token overrides beat a configuration
that carries its own host and token. -/
theorem C7_override_precedence_witness :
    (setup_databricks_authentication
       { workspace_url := some "https://cfg-host", token := some "cfg-token" }
       (some "https://arg-host") (some "arg-token")).databricks_token =
      some "arg-token" :=
  (C7_override_precedence
      { workspace_url := some "https://cfg-host", token := some "cfg-token" }
      (some "arg-token") "https://arg-host" "arg-token"
      (by decide) (by decide)).2.2.2 (by decide) (some "https://arg-host")

/-- C9: execute_git_clone is total at its interface — every clone outcome
(nonzero exit, timeout, other exception) is converted to a boolean, and it
returns true exactly when the clone subprocess exits with code 0. -/
theorem C9_clone_total (git_url : String) (git_token : Option String)
    (o : CloneOutcome) :
    execute_git_clone git_url git_token o = decide (o = CloneOutcome.exit 0) := by
  cases o with
  | exit c =>
    by_cases hc : c = 0 <;>
      simp [execute_git_clone, execute_git_clone_body, hc]
  | timeout => rfl
  | exc => rfl

/-- C1 counterexample: when no installed Databricks CLI is discovered at all,
`execute_bundle_operation` reports overall failure immediately (line 465)
without attempting the downloaded-CLI strategy — even though that strategy
would have succeeded here — so the chain does not fall through on every
native-strategy non-success, and overall failure is reported without all
strategies having been attempted. -/
theorem C1_counterexample :
    (execute_bundle_operation NativeOutcome.notFound (DownloadOutcome.bundleExit 0)).1
      = false
  ∧ (execute_bundle_operation NativeOutcome.notFound (DownloadOutcome.bundleExit 0)).2
      = [⟨"native_cli", false⟩]
  ∧ download_and_execute_bundle_operation (DownloadOutcome.bundleExit 0) = true :=
  ⟨rfl, rfl, rfl⟩

/-- C1 (amended): when a native CLI is found, the chain stops at the first
strategy reporting success — exit code 0 returns success without the
downloaded-CLI strategy; a nonzero exit code, a raised exception, or a
timeout falls through to the downloaded-CLI strategy, whose result decides
the overall outcome, with both per-strategy results recorded; but when no
native CLI installation is discovered at all, the chain reports failure
immediately with only the native attempt recorded. -/
theorem C1_strategy_chain (d : DownloadOutcome) :
    execute_bundle_operation (NativeOutcome.exit 0) d = (true, [⟨"native_cli", true⟩])
  ∧ (∀ c : Int, c ≠ 0 →
       execute_bundle_operation (NativeOutcome.exit c) d =
         (download_and_execute_bundle_operation d,
          [⟨"native_cli", false⟩,
           ⟨"downloaded_cli", download_and_execute_bundle_operation d⟩]))
  ∧ execute_bundle_operation NativeOutcome.exc d =
      (download_and_execute_bundle_operation d,
       [⟨"native_cli", false⟩,
        ⟨"downloaded_cli", download_and_execute_bundle_operation d⟩])
  ∧ execute_bundle_operation NativeOutcome.timeout d =
      (download_and_execute_bundle_operation d,
       [⟨"native_cli", false⟩,
        ⟨"downloaded_cli", download_and_execute_bundle_operation d⟩])
  ∧ execute_bundle_operation NativeOutcome.notFound d = (false, [⟨"native_cli", false⟩]) := by
  refine ⟨rfl, ?_, rfl, rfl, rfl⟩
  intro c hc
  simp [execute_bundle_operation, hc]

/-- Witness for C1: a nonzero native exit code falls through to a succeeding
downloaded-CLI strategy. -/
theorem C1_strategy_chain_witness :
    execute_bundle_operation (NativeOutcome.exit 2) (DownloadOutcome.bundleExit 0) =
      (true, [⟨"native_cli", false⟩, ⟨"downloaded_cli", true⟩]) := by
  have h := (C1_strategy_chain (DownloadOutcome.bundleExit 0)).2.1 2 (by decide)
  exact h.trans (by decide)

/-- C2: on every exit path of a main invocation, removal of the temporary
directory is attempted exactly when the directory was created, the directory
remains afterwards only when the removal itself failed, and the cleanup
outcome never changes the invocation's verdict (and when the removal
succeeds the directory does not exist afterwards). -/
theorem C2_cleanup_always (args : Args) (o : Oracles) (td : String) :
    (mainRun args o td).cleanupAttempted = (mainRun args o td).tempDirCreated
  ∧ (mainRun args o td).tempDirExistsAfter =
      ((mainRun args o td).tempDirCreated && o.cleanup.failed)
  ∧ (mainRun args { o with cleanup := CleanupOutcome.ok } td).verdict =
      (mainRun args o td).verdict
  ∧ (mainRun args { o with cleanup := CleanupOutcome.ok } td).tempDirExistsAfter = false := by
  by_cases h1 : setup_databricks_authentication (dbConfigOf args) args.databricks_host
      args.databricks_token = EnvVars.empty
  · simp [mainRun, h1, preDirTrace]
  · by_cases h2 : args.git_url = ""
    · simp [mainRun, h1, h2, preDirTrace]
    · by_cases h3 : args.yaml_path = ""
      · simp [mainRun, h1, h2, h3, preDirTrace]
      · simp [mainRun, h1, h2, h3, CleanupOutcome.failed]

/-- C5 counterexample: an invocation whose Databricks connection config is a
malformed JSON blob is not aborted — with a direct token override the
pipeline proceeds through clone and bundle execution and exits successfully,
so the malformed blob is not a fatal configuration error surfaced
immediately. -/
theorem C5_counterexample :
    (mainRun
       { git_url := "https://github.com/org/repo.git"
         yaml_path := "databricks.yml"
         databricks_host := some "https://host.example"
         databricks_token := some "tok"
         databricks_connection_config := some JsonBlob.malformed }
       { clone := CloneOutcome.exit 0
         native := NativeOutcome.exit 0
         download := DownloadOutcome.bundleExit 0
         unexpected := false
         cleanup := CleanupOutcome.ok
         dirExists := fun _ => true }
       "/tmp/bundle_validate_x").verdict = Verdict.exited 0
  ∧ (mainRun
       { git_url := "https://github.com/org/repo.git"
         yaml_path := "databricks.yml"
         databricks_host := some "https://host.example"
         databricks_token := some "tok"
         databricks_connection_config := some JsonBlob.malformed }
       { clone := CloneOutcome.exit 0
         native := NativeOutcome.exit 0
         download := DownloadOutcome.bundleExit 0
         unexpected := false
         cleanup := CleanupOutcome.ok
         dirExists := fun _ => true }
       "/tmp/bundle_validate_x").cloneAttempted = true :=
  ⟨rfl, rfl⟩

/-- C5 (amended): a malformed JSON connection blob is caught, logged as a
warning, and treated exactly like an absent configuration (the empty dict);
the invocation aborts (exit 1, before any clone) only when the remaining
sources leave the credentials unresolvable, not immediately on the parse
error. -/
theorem C5_malformed_config (args : Args) (o : Oracles) (td : String) :
    mainRun { args with databricks_connection_config := some JsonBlob.malformed } o td =
      mainRun { args with databricks_connection_config := none } o td
  ∧ mainRun { args with git_connection_config := some JsonBlob.malformed } o td =
      mainRun { args with git_connection_config := none } o td
  ∧ parse_connection_config (some JsonBlob.malformed) = ({} : ConnConfig) :=
  ⟨rfl, rfl, rfl⟩

lemma pathJoin_rel (a b : String) (hb : startsWithStr b "/" = false)
    (ha : ¬ a = "") (ha2 : endsWithStr a "/" = false) :
    pathJoin a b = a ++ "/" ++ b := by
  simp [pathJoin, hb, ha, ha2]

/-- C6: for a relative descriptor path, the working directory is the parent
directory of the descriptor path joined under the cloned workspace root when
that directory exists; when it does not exist, or when the path has no
parent component, the workspace root is used instead. -/
theorem C6_workdir_resolution (yaml_path temp_dir : String) (dirExists : String → Bool)
    (hrel : startsWithStr (dirnameStr yaml_path) "/" = false)
    (hne : ¬ temp_dir = "") (hslash : endsWithStr temp_dir "/" = false) :
    (dirnameStr yaml_path = "" →
       resolve_work_dir yaml_path temp_dir dirExists = temp_dir)
  ∧ (dirnameStr yaml_path ≠ "" →
       dirExists (temp_dir ++ "/" ++ dirnameStr yaml_path) = true →
       resolve_work_dir yaml_path temp_dir dirExists =
         temp_dir ++ "/" ++ dirnameStr yaml_path)
  ∧ (dirnameStr yaml_path ≠ "" →
       dirExists (temp_dir ++ "/" ++ dirnameStr yaml_path) = false →
       resolve_work_dir yaml_path temp_dir dirExists = temp_dir) := by
  refine ⟨?_, ?_, ?_⟩
  · intro hdir
    simp [resolve_work_dir, hdir]
  · intro hdir hex
    simp [resolve_work_dir, hdir, pathJoin_rel temp_dir (dirnameStr yaml_path) hrel hne hslash, hex]
  · intro hdir hex
    simp [resolve_work_dir, hdir, pathJoin_rel temp_dir (dirnameStr yaml_path) hrel hne hslash, hex]

/-- Witness for C6: a two-level descriptor path resolves to its parent
directory under the workspace root when that directory exists. -/
theorem C6_workdir_resolution_witness :
    resolve_work_dir "proj/sub/databricks.yml" "/tmp/bundle_validate_ab" (fun _ => true) =
      "/tmp/bundle_validate_ab/proj/sub" := by
  have h := (C6_workdir_resolution "proj/sub/databricks.yml" "/tmp/bundle_validate_ab"
      (fun _ => true) (by decide) (by decide) (by decide)).2.1 (by decide) rfl
  exact h.trans (by decide)

lemma data_append (a b : String) : (a ++ b).data = a.data ++ b.data := rfl

lemma mk_data_append (a b : String) : String.mk (a.data ++ b.data) = a ++ b := rfl

lemma replaceFuel_not_contains (p0 : Char) (ps rep : List Char) :
    ∀ (s : List Char) (n : Nat), containsSubList (p0 :: ps) s = false →
      replaceFuel p0 ps rep n s = s := by
  intro s
  induction s with
  | nil =>
    intro n _
    cases n <;> rfl
  | cons c cs ih =>
    intro n h
    rw [containsSubList] at h
    have h1 : (p0 :: ps).isPrefixOf (c :: cs) = false :=
      (Bool.or_eq_false_iff.mp h).1
    have h2 : containsSubList (p0 :: ps) cs = false :=
      (Bool.or_eq_false_iff.mp h).2
    cases n with
    | zero => rfl
    | succ m =>
      simp only [replaceFuel, h1, Bool.false_eq_true, if_false]
      exact congrArg (c :: ·) (ih m h2)

lemma replaceList_leading (pat rep rest : List Char) (hne : pat ≠ [])
    (h : containsSubList pat rest = false) :
    replaceList pat rep (pat ++ rest) = rep ++ rest := by
  cases pat with
  | nil => exact absurd rfl hne
  | cons p0 ps =>
    have hpre : (p0 :: ps).isPrefixOf ((p0 :: ps) ++ rest) = true :=
      List.isPrefixOf_iff_prefix.mpr ( List.prefix_append _ _)
    show replaceFuel p0 ps rep ((p0 :: ps) ++ rest).length ((p0 :: ps) ++ rest) = rep ++ rest
    rw [List.cons_append] at hpre ⊢
    rw [List.length_cons]
    simp only [replaceFuel, hpre, if_true]
    rw [List.drop_left]
    exact congrArg (rep ++ ·) (replaceFuel_not_contains p0 ps rep rest _ h)

lemma replaceStr_https (rest rep : String)
    (h : containsSubList "https://".data rest.data = false) :
    replaceStr ("https://" ++ rest) "https://" rep = rep ++ rest := by
  show String.mk (replaceList "https://".data rep.data ("https://" ++ rest).data) = rep ++ rest
  rw [data_append]
  rw [replaceList_leading "https://".data rep.data rest.data (by decide) h]
  exact mk_data_append rep rest

/-- C8: for every https git URL (scheme occurring only as the leading prefix)
and every present, non-empty git credential, the clone URL embeds the
credential by host convention — github.com URLs become https://token@,
gitlab.com URLs become https://oauth2:token@, any other provider becomes
https://token@ — and with no credential (absent or empty) the URL is used
unchanged. -/
theorem C8_url_credential (rest tok : String)
    (hrest : containsSubList "https://".data rest.data = false)
    (htok : tok ≠ "") :
    (containsStr ("https://" ++ rest) "github.com" = true →
       authenticated_url ("https://" ++ rest) (some tok) =
         "https://" ++ tok ++ "@" ++ rest)
  ∧ (containsStr ("https://" ++ rest) "github.com" = false →
     containsStr ("https://" ++ rest) "gitlab.com" = true →
       authenticated_url ("https://" ++ rest) (some tok) =
         "https://oauth2:" ++ tok ++ "@" ++ rest)
  ∧ (containsStr ("https://" ++ rest) "github.com" = false →
     containsStr ("https://" ++ rest) "gitlab.com" = false →
       authenticated_url ("https://" ++ rest) (some tok) =
         "https://" ++ tok ++ "@" ++ rest)
  ∧ (∀ u : String, authenticated_url u none = u)
  ∧ (∀ u : String, authenticated_url u (some "") = u) := by
  refine ⟨?_, ?_, ?_, fun u => rfl, fun u => rfl⟩
  · intro hgh
    simp only [authenticated_url, truthy_some_of_ne tok htok, hgh, if_true]
    exact replaceStr_https rest ("https://" ++ tok ++ "@") hrest
  · intro hgh hgl
    simp only [authenticated_url, truthy_some_of_ne tok htok, hgh, hgl,
      Bool.false_eq_true, if_false, if_true]
    exact replaceStr_https rest ("https://oauth2:" ++ tok ++ "@") hrest
  · intro hgh hgl
    simp only [authenticated_url, truthy_some_of_ne tok htok, hgh, hgl,
      Bool.false_eq_true, if_false]
    exact replaceStr_https rest ("https://" ++ tok ++ "@") hrest

/-- Witness for C8 at a concrete GitHub URL and token. -/
theorem C8_url_credential_witness :
    authenticated_url "https://github.com/org/repo.git" (some "t0k") =
      "https://t0k@github.com/org/repo.git" := by
  have h := (C8_url_credential "github.com/org/repo.git" "t0k"
      (by decide) (by decide)).1 (by decide)
  exact h.trans (by decide)

lemma sizeGe_trans (a b c : FsEntry) (h1 : sizeGe a b) (h2 : sizeGe b c) : sizeGe a c := by
  simp only [sizeGe, decide_eq_true_eq] at h1 h2 ⊢
  omega

lemma sizeGe_total (a b : FsEntry) : sizeGe a b || sizeGe b a := by
  simp only [sizeGe, Bool.or_eq_true, decide_eq_true_eq]
  omega

/-- C10: the report of analyze_files truncates and orders its summaries —
largest_files has at most 10 entries in non-increasing size order,
hidden_files has at most 20 entries all of which are dot-files, and
total_files equals the number of regular files found under the root. -/
theorem C10_analysis_bounds (entries : List FsEntry) :
    (analyze_files entries).total_files = (entries.filter (fun e => e.isFile)).length
  ∧ (analyze_files entries).largest_files.length ≤ 10
  ∧ (analyze_files entries).largest_files.Pairwise (fun a b => b.size ≤ a.size)
  ∧ (analyze_files entries).hidden_files.length ≤ 20
  ∧ (analyze_files entries).hidden_files.all (fun e => startsWithStr e.name ".") = true := by
  refine ⟨rfl, List.length_take_le _ _, ?_, List.length_take_le _ _, ?_⟩
  · have hsorted :=
      List.sorted_mergeSort sizeGe_trans sizeGe_total
        (((entries.filter (fun e => e.isFile)).filter (fun e => e.statOk)))
    have htake := hsorted.sublist (List.take_sublist 10 _)
    exact htake.imp (fun h => by simpa [sizeGe] using h)
  · rw [List.all_eq_true]
    intro e he
    have hmem := List.mem_of_mem_take he
    exact (List.mem_filter.mp hmem).2
